import Mathlib

/-!
Shallow embedding of the Nashville Airbnb dashboard scripts
(`datavisualization_assignment.py`, `week6_assignment.py`) and proofs about
their cleaning pipelines and brush-linked chart engines.

Numeric dataframe cells are modelled as exact rationals extended with the two
IEEE infinities (`PandasNum`); a missing value (NaN) is modelled as `none` at
`Option PandasNum`.  Dataframes are lists of typed rows; the pandas/altair
operations used by the scripts (to_numeric, dropna, boolean filtering,
quantile with linear interpolation, interval selections, transform_filter)
are translated operation by operation.
-/

attribute [local semireducible] Rat.add Rat.mul Rat.sub Rat.inv

/-- Model of a non-NaN pandas float: a finite rational or one of the two
infinities.  NaN is represented by `Option.none` one level up. -/
inductive PandasNum where
  | ninf : PandasNum
  | val : ℚ → PandasNum
  | pinf : PandasNum
deriving DecidableEq

namespace PandasNum

/-- Boolean comparison `a <= b` on non-NaN pandas floats; this is the form
the cleaning filters execute. -/
def leb : PandasNum → PandasNum → Bool
  | .ninf, _ => true
  | _, .pinf => true
  | .pinf, .ninf => false
  | .pinf, .val _ => false
  | .val _, .ninf => false
  | .val x, .val y => decide (x ≤ y)

/-- The order on non-NaN pandas floats, as a proposition. -/
def lep : PandasNum → PandasNum → Prop
  | .ninf, _ => True
  | _, .pinf => True
  | .pinf, .ninf => False
  | .pinf, .val _ => False
  | .val _, .ninf => False
  | .val x, .val y => x ≤ y

instance : LE PandasNum := ⟨lep⟩

theorem leb_iff_le (a b : PandasNum) : leb a b = true ↔ a ≤ b := by
  cases a <;> cases b <;> simp [leb, LE.le, lep]

instance : LinearOrder PandasNum where
  le_refl a := by cases a <;> first | trivial | exact le_refl (α := ℚ) _
  le_trans a b c h1 h2 := by
    cases a <;> cases b <;> cases c <;>
      first
        | trivial
        | exact h1.elim
        | exact h2.elim
        | exact le_trans (α := ℚ) h1 h2
  le_antisymm a b h1 h2 := by
    cases a <;> cases b <;>
      first
        | rfl
        | exact h1.elim
        | exact h2.elim
        | exact congrArg val (le_antisymm h1 h2)
  le_total a b := by
    cases a <;> cases b <;>
      first
        | exact Or.inl trivial
        | exact Or.inr trivial
        | exact le_total (α := ℚ) _ _
  decidableLE a b := decidable_of_iff (leb a b = true) (leb_iff_le a b)

@[simp] theorem val_le_val {x y : ℚ} : (val x ≤ val y) ↔ x ≤ y := Iff.rfl

@[simp] theorem val_lt_val {x y : ℚ} : (val x < val y) ↔ x < y := by
  rw [lt_iff_le_not_le, lt_iff_le_not_le]
  exact Iff.rfl

@[simp] theorem le_pinf (a : PandasNum) : a ≤ pinf := by
  cases a <;> trivial

@[simp] theorem ninf_le (a : PandasNum) : ninf ≤ a := by
  cases a <;> trivial

@[simp] theorem not_val_le_ninf {x : ℚ} : ¬ (val x ≤ ninf) := fun h => h.elim

@[simp] theorem not_pinf_le_val {x : ℚ} : ¬ (pinf ≤ val x) := fun h => h.elim

/-- Linear interpolation between two pandas floats, as used by the
percentile computation.  Between two finite values it is the exact affine
interpolation; if an endpoint is infinite the result is the left endpoint at
fraction `0` and the right endpoint otherwise (model of the library's
behaviour at infinite data, unused on finite data). -/
def interp : PandasNum → PandasNum → ℚ → PandasNum
  | .val x, .val y, g => .val (x + g * (y - x))
  | a, b, g => if g ≤ 0 then a else b

theorem interp_bounds {a b : PandasNum} {g : ℚ} (hab : a ≤ b)
    (h0 : 0 ≤ g) (h1 : g ≤ 1) : a ≤ interp a b g ∧ interp a b g ≤ b := by
  cases a <;> cases b
  case val.val x y =>
    rw [val_le_val] at hab
    constructor
    · rw [show interp (val x) (val y) g = val (x + g * (y - x)) from rfl, val_le_val]
      nlinarith
    · rw [show interp (val x) (val y) g = val (x + g * (y - x)) from rfl, val_le_val]
      nlinarith
  all_goals
    constructor <;> (simp only [interp]; split <;> simp_all)

theorem interp_mono_frac {a b : PandasNum} {g g' : ℚ} (hab : a ≤ b)
    (hg : g ≤ g') : interp a b g ≤ interp a b g' := by
  cases a <;> cases b
  case val.val x y =>
    rw [val_le_val] at hab
    rw [show interp (val x) (val y) g = val (x + g * (y - x)) from rfl,
      show interp (val x) (val y) g' = val (x + g' * (y - x)) from rfl, val_le_val]
    nlinarith
  all_goals
    simp only [interp]
    split <;> split <;> simp_all <;> linarith

end PandasNum

/-! ### Series sorting, min/max and percentile (pandas `Series.quantile`)

`Series.quantile(q)` sorts the non-null values ascending and linearly
interpolates at position `q * (n - 1)`.  `Series.min()`/`Series.max()` are
modelled as the head/last of the same ascending sort. -/

/-- Ascending sort of a column of non-NaN values. -/
def sortPN (l : List PandasNum) : List PandasNum :=
  List.insertionSort (· ≤ ·) l

theorem sortPN_sorted (l : List PandasNum) : List.Sorted (· ≤ ·) (sortPN l) :=
  List.sorted_insertionSort (· ≤ ·) l

theorem sortPN_perm (l : List PandasNum) : List.Perm (sortPN l) l :=
  List.perm_insertionSort (· ≤ ·) l

theorem mem_sortPN {a : PandasNum} {l : List PandasNum} : a ∈ sortPN l ↔ a ∈ l :=
  (sortPN_perm l).mem_iff

theorem sortPN_ne_nil {l : List PandasNum} (h : l ≠ []) : sortPN l ≠ [] := by
  intro hs
  exact h (List.Perm.eq_nil ((sortPN_perm l).symm.trans (hs ▸ List.Perm.refl _)))

/-- Index part of the interpolated percentile position `q * (n - 1)`. -/
def qIndex (n : ℕ) (q : ℚ) : ℕ :=
  (Int.floor (q * ((n : ℚ) - 1))).toNat

/-- Fractional part of the interpolated percentile position. -/
def qFrac (n : ℕ) (q : ℚ) : ℚ :=
  q * ((n : ℚ) - 1) - (qIndex n q : ℚ)

/-- Percentile of an ascending-sorted column by linear interpolation
(the pandas default interpolation). -/
def quantileSorted (s : List PandasNum) (q : ℚ) : PandasNum :=
  if h : qIndex s.length q + 1 < s.length then
    PandasNum.interp (s.get ⟨qIndex s.length q, by omega⟩)
      (s.get ⟨qIndex s.length q + 1, h⟩) (qFrac s.length q)
  else
    s.getLastD (PandasNum.val 0)

/-- Model of `Series.quantile(q)`. -/
def quantilePN (l : List PandasNum) (q : ℚ) : PandasNum :=
  quantileSorted (sortPN l) q

/-- Model of `Series.min()`. -/
def minPN (l : List PandasNum) : PandasNum :=
  (sortPN l).headD (PandasNum.val 0)

/-- Model of `Series.max()`. -/
def maxPN (l : List PandasNum) : PandasNum :=
  (sortPN l).getLastD (PandasNum.val 0)

theorem headD_le_of_sorted :
    ∀ (s : List PandasNum), List.Sorted (· ≤ ·) s →
      ∀ b ∈ s, ∀ d, s.headD d ≤ b := by
  intro s hs b hb d
  match s, hb with
  | a :: t, hb =>
    rcases List.mem_cons.mp hb with rfl | hbt
    · exact le_refl _
    · exact List.rel_of_sorted_cons hs b hbt

theorem le_getLastD_of_sorted :
    ∀ (s : List PandasNum), List.Sorted (· ≤ ·) s →
      ∀ b ∈ s, ∀ d, b ≤ s.getLastD d := by
  intro s
  induction s with
  | nil => intro _ b hb; exact absurd hb (List.not_mem_nil b)
  | cons a t ih =>
    intro hs b hb d
    rw [List.getLastD_cons]
    rcases List.mem_cons.mp hb with hba | hbt
    · subst hba
      match t with
      | [] => exact le_refl _
      | c :: t' =>
        exact le_trans (List.rel_of_sorted_cons hs c (List.mem_cons_self c t'))
          (ih hs.of_cons c (List.mem_cons_self c t') b)
    · exact ih hs.of_cons b hbt a

theorem qIndex_cast_eq (n : ℕ) (q : ℚ) (h0 : 0 ≤ q) (hn : 1 ≤ n) :
    ((qIndex n q : ℕ) : ℚ) = ((Int.floor (q * ((n : ℚ) - 1)) : ℤ) : ℚ) := by
  have h1 : (1 : ℚ) ≤ (n : ℚ) := by exact_mod_cast hn
  have hpos : (0 : ℚ) ≤ q * ((n : ℚ) - 1) := by nlinarith
  have hfl : (0 : ℤ) ≤ Int.floor (q * ((n : ℚ) - 1)) := Int.floor_nonneg.mpr hpos
  unfold qIndex
  exact_mod_cast congrArg (fun z : ℤ => (z : ℚ)) (Int.toNat_of_nonneg hfl)

theorem qFrac_nonneg (n : ℕ) (q : ℚ) (h0 : 0 ≤ q) (hn : 1 ≤ n) :
    0 ≤ qFrac n q := by
  unfold qFrac
  rw [qIndex_cast_eq n q h0 hn]
  have := Int.floor_le (q * ((n : ℚ) - 1))
  linarith

theorem qFrac_lt_one (n : ℕ) (q : ℚ) (h0 : 0 ≤ q) (hn : 1 ≤ n) :
    qFrac n q < 1 := by
  unfold qFrac
  rw [qIndex_cast_eq n q h0 hn]
  have := Int.lt_floor_add_one (q * ((n : ℚ) - 1))
  linarith

theorem qIndex_mono (n : ℕ) (q q' : ℚ) (h0 : 0 ≤ q) (hqq : q ≤ q') (hn : 1 ≤ n) :
    qIndex n q ≤ qIndex n q' := by
  have h1 : (1 : ℚ) ≤ (n : ℚ) := by exact_mod_cast hn
  have hpos : q * ((n : ℚ) - 1) ≤ q' * ((n : ℚ) - 1) := by nlinarith
  exact Int.toNat_le_toNat (Int.floor_le_floor hpos)

theorem qFrac_mono_of_qIndex_eq (n : ℕ) (q q' : ℚ) (hqq : q ≤ q')
    (hn : 1 ≤ n) (hi : qIndex n q = qIndex n q') : qFrac n q ≤ qFrac n q' := by
  unfold qFrac
  rw [hi]
  have h1 : (1 : ℚ) ≤ (n : ℚ) := by exact_mod_cast hn
  have : q * ((n : ℚ) - 1) ≤ q' * ((n : ℚ) - 1) := by nlinarith
  linarith

theorem quantileSorted_bounds (s : List PandasNum) (hs : List.Sorted (· ≤ ·) s)
    (hne : s ≠ []) (q : ℚ) (h0 : 0 ≤ q) (h1 : q ≤ 1) :
    s.headD (PandasNum.val 0) ≤ quantileSorted s q ∧
      quantileSorted s q ≤ s.getLastD (PandasNum.val 0) := by
  have hn : 1 ≤ s.length := List.length_pos.mpr hne
  unfold quantileSorted
  split
  case isTrue h =>
    have hadj : s.get ⟨qIndex s.length q, by omega⟩ ≤ s.get ⟨qIndex s.length q + 1, h⟩ := by
      apply List.Sorted.rel_get_of_le hs
      exact Fin.mk_le_mk.mpr (Nat.le_succ _)
    have hb := PandasNum.interp_bounds hadj (qFrac_nonneg s.length q h0 hn)
      (le_of_lt (qFrac_lt_one s.length q h0 hn))
    constructor
    · exact le_trans (headD_le_of_sorted s hs _ (List.get_mem s _ _) _) hb.1
    · exact le_trans hb.2 (le_getLastD_of_sorted s hs _ (List.get_mem s _ _) _)
  case isFalse h =>
    constructor
    · match s, hne with
      | a :: t, _ => exact le_getLastD_of_sorted (a :: t) hs a (List.mem_cons_self a t) _
    · exact le_refl _

theorem quantileSorted_mono (s : List PandasNum) (hs : List.Sorted (· ≤ ·) s)
    (hne : s ≠ []) (q q' : ℚ) (h0 : 0 ≤ q) (hqq : q ≤ q') (h1 : q' ≤ 1) :
    quantileSorted s q ≤ quantileSorted s q' := by
  have hn : 1 ≤ s.length := List.length_pos.mpr hne
  have himono : qIndex s.length q ≤ qIndex s.length q' :=
    qIndex_mono s.length q q' h0 hqq hn
  unfold quantileSorted
  split
  case isTrue h =>
    split
    case isTrue h' =>
      rcases Nat.lt_or_ge (qIndex s.length q) (qIndex s.length q') with hlt | hge
      · -- strictly smaller index: go through the adjacent entries
        have hadj : s.get ⟨qIndex s.length q, by omega⟩ ≤ s.get ⟨qIndex s.length q + 1, h⟩ := by
          apply List.Sorted.rel_get_of_le hs
          exact Fin.mk_le_mk.mpr (Nat.le_succ _)
        have hb := PandasNum.interp_bounds hadj (qFrac_nonneg s.length q h0 hn)
          (le_of_lt (qFrac_lt_one s.length q h0 hn))
        have hadj' : s.get ⟨qIndex s.length q', by omega⟩ ≤ s.get ⟨qIndex s.length q' + 1, h'⟩ := by
          apply List.Sorted.rel_get_of_le hs
          exact Fin.mk_le_mk.mpr (Nat.le_succ _)
        have hb' := PandasNum.interp_bounds hadj'
          (qFrac_nonneg s.length q' (le_trans h0 hqq) hn)
          (le_of_lt (qFrac_lt_one s.length q' (le_trans h0 hqq) hn))
        have hmid : s.get ⟨qIndex s.length q + 1, h⟩ ≤ s.get ⟨qIndex s.length q', by omega⟩ := by
          apply List.Sorted.rel_get_of_le hs
          exact Fin.mk_le_mk.mpr hlt
        exact le_trans hb.2 (le_trans hmid hb'.1)
      · -- equal indices: interpolation is monotone in the fraction
        have heq : qIndex s.length q = qIndex s.length q' := le_antisymm himono hge
        have hadj' : s.get ⟨qIndex s.length q', by omega⟩ ≤ s.get ⟨qIndex s.length q' + 1, h'⟩ := by
          apply List.Sorted.rel_get_of_le hs
          exact Fin.mk_le_mk.mpr (Nat.le_succ _)
        have hfr := qFrac_mono_of_qIndex_eq s.length q q' hqq hn heq
        simp only [heq]
        exact PandasNum.interp_mono_frac hadj' hfr
    case isFalse h' =>
      -- the right endpoint is the last entry
      have hadj : s.get ⟨qIndex s.length q, by omega⟩ ≤ s.get ⟨qIndex s.length q + 1, h⟩ := by
        apply List.Sorted.rel_get_of_le hs
        exact Fin.mk_le_mk.mpr (Nat.le_succ _)
      have hb := PandasNum.interp_bounds hadj (qFrac_nonneg s.length q h0 hn)
        (le_of_lt (qFrac_lt_one s.length q h0 hn))
      exact le_trans hb.2 (le_getLastD_of_sorted s hs _ (List.get_mem s _ _) _)
  case isFalse h =>
    split
    case isTrue h' => omega
    case isFalse h' => exact le_refl _

theorem minPN_le_quantilePN {l : List PandasNum} (hne : l ≠ []) {q : ℚ}
    (h0 : 0 ≤ q) (h1 : q ≤ 1) : minPN l ≤ quantilePN l q :=
  (quantileSorted_bounds (sortPN l) (sortPN_sorted l) (sortPN_ne_nil hne) q h0 h1).1

theorem quantilePN_le_maxPN {l : List PandasNum} (hne : l ≠ []) {q : ℚ}
    (h0 : 0 ≤ q) (h1 : q ≤ 1) : quantilePN l q ≤ maxPN l :=
  (quantileSorted_bounds (sortPN l) (sortPN_sorted l) (sortPN_ne_nil hne) q h0 h1).2

theorem quantilePN_mono {l : List PandasNum} (hne : l ≠ []) {q q' : ℚ}
    (h0 : 0 ≤ q) (hqq : q ≤ q') (h1 : q' ≤ 1) : quantilePN l q ≤ quantilePN l q' :=
  quantileSorted_mono (sortPN l) (sortPN_sorted l) (sortPN_ne_nil hne) q q' h0 hqq h1

theorem minPN_le_mem {l : List PandasNum} {p : PandasNum} (hp : p ∈ l) :
    minPN l ≤ p :=
  headD_le_of_sorted (sortPN l) (sortPN_sorted l) p (mem_sortPN.mpr hp) _

theorem mem_le_maxPN {l : List PandasNum} {p : PandasNum} (hp : p ∈ l) :
    p ≤ maxPN l :=
  le_getLastD_of_sorted (sortPN l) (sortPN_sorted l) p (mem_sortPN.mpr hp) _

/-! ### String cell coercion (pandas `pd.to_numeric(..., errors='coerce')`)

CSV cells are strings; a missing cell is `none` at `Option String`.  The
numeric parser accepts an optional sign, decimal digits with an optional
fractional part, and the infinity spellings; anything else coerces to
missing (`none`), which is how `errors='coerce'` produces NaN. -/

/-- Strip leading and trailing whitespace from a character list. -/
def trimChars (cs : List Char) : List Char :=
  ((cs.dropWhile Char.isWhitespace).reverse.dropWhile Char.isWhitespace).reverse

/-- Lowercase every character. -/
def lowerChars (cs : List Char) : List Char :=
  cs.map Char.toLower

/-- Numeric value of a digit string (the caller checks all are digits). -/
def natOfDigits (cs : List Char) : ℕ :=
  cs.foldl (fun n c => 10 * n + (c.toNat - 48)) 0

/-- Split a character list at the first decimal point, if any. -/
def splitDot (cs : List Char) : List Char × Option (List Char) :=
  match cs.dropWhile (fun c => c != '.') with
  | [] => (cs.takeWhile (fun c => c != '.'), none)
  | _ :: t => (cs.takeWhile (fun c => c != '.'), some t)

/-- Model of `pd.to_numeric(s, errors='coerce')` on a string cell: `none` is
NaN. -/
def toNumericQ (s : String) : Option PandasNum :=
  let cs := trimChars s.data
  let sgnBody : ℚ × List Char :=
    match cs with
    | '-' :: t => (-1, t)
    | '+' :: t => (1, t)
    | _ => (1, cs)
  let sgn := sgnBody.1
  let body := sgnBody.2
  if lowerChars body = "inf".data ∨ lowerChars body = "infinity".data then
    some (if sgn < 0 then PandasNum.ninf else PandasNum.pinf)
  else
    match splitDot body with
    | (ip, none) =>
      if ip ≠ [] ∧ ip.all Char.isDigit then
        some (PandasNum.val (sgn * (natOfDigits ip : ℚ)))
      else none
    | (ip, some fp) =>
      if (ip ≠ [] ∨ fp ≠ []) ∧ ip.all Char.isDigit ∧ fp.all Char.isDigit then
        some (PandasNum.val
          (sgn * ((natOfDigits ip : ℚ) + (natOfDigits fp : ℚ) / (10 : ℚ) ^ fp.length)))
      else none

/-- Model of `.str.replace(r'[$,]', '', regex=True)`: drop every dollar sign
and comma. -/
def stripPrice (s : String) : String :=
  String.mk (s.data.filter (fun c => c != '$' && c != ','))

/-- Model of the `host_is_superhost` dictionary map at line 47 of
`datavisualization_assignment.py`: lowercase, then look up in
`{'t': True, 'f': False, 'true': True, 'false': False}`; anything else is
NaN. -/
def mapSuperhost (s : String) : Option Bool :=
  let t := String.mk (lowerChars s.data)
  if t = "t" ∨ t = "true" then some true
  else if t = "f" ∨ t = "false" then some false
  else none

/-- A parsed `host_since` date; `pd.to_datetime(..., errors='coerce')` is
modelled as already having produced `Option HostDate` (the date parser is
library code outside this repository). -/
structure HostDate where
  year : Int
  month : Nat
deriving DecidableEq


/-! ### Loader/Cleaner of `datavisualization_assignment.py` (`load_airbnb_data`) -/

/-- A raw CSV row with the columns `load_airbnb_data` touches.  String cells
are `Option String` (`none` = missing); `host_since` holds the result of
`pd.to_datetime(..., format='%m/%d/%Y', errors='coerce')`. -/
structure AirbnbRaw where
  host_since : Option HostDate
  price : Option String
  reviews_per_month : Option String
  review_scores_rating : Option String
  calculated_host_listings_count : Option String
  host_id : Option String
  neighbourhood_cleansed : Option String
  host_is_superhost : Option String
  room_type : Option String
deriving DecidableEq

/-- A row retained by `load_airbnb_data`: every column in the dropna subset
is present, `host_is_superhost` has been mapped to a boolean. -/
structure AirbnbRow where
  host_since : HostDate
  host_start_year : Int
  price : PandasNum
  reviews_per_month : PandasNum
  review_scores_rating : PandasNum
  calculated_host_listings_count : PandasNum
  host_id : String
  neighbourhood_cleansed : String
  host_is_superhost : Bool
  room_type : String
deriving DecidableEq

/-- Per-row cleaning of `load_airbnb_data` (lines 18-51): coerce the numeric
columns and derive `host_start_year`; drop the row unless every column of
the dropna subset is present (line 34); keep only finite non-negative
`reviews_per_month` (lines 37-38), `host_start_year` in
`[2008, current_year]` (line 44), a mappable `host_is_superhost`
(lines 47-48) and `price > 0` (line 51). -/
def cleanAirbnbRow (currentYear : Int) (r : AirbnbRaw) : Option AirbnbRow :=
  match r.price.bind toNumericQ, r.reviews_per_month.bind toNumericQ,
      r.review_scores_rating.bind toNumericQ,
      r.calculated_host_listings_count.bind toNumericQ,
      r.host_since, r.host_id, r.neighbourhood_cleansed,
      r.host_is_superhost, r.room_type with
  | some price, some rpm, some rsr, some chlc, some hs, some hid, some nb,
      some shRaw, some rt =>
    if (rpm != PandasNum.pinf) && PandasNum.leb (PandasNum.val 0) rpm
        && decide (2008 ≤ hs.year) && decide (hs.year ≤ currentYear) then
      match mapSuperhost shRaw with
      | some sh =>
        if !(PandasNum.leb price (PandasNum.val 0)) then
          some { host_since := hs, host_start_year := hs.year, price := price,
                 reviews_per_month := rpm, review_scores_rating := rsr,
                 calculated_host_listings_count := chlc, host_id := hid,
                 neighbourhood_cleansed := nb, host_is_superhost := sh,
                 room_type := rt }
        else none
      | none => none
    else none
  | _, _, _, _, _, _, _, _, _ => none

/-- Model of `load_airbnb_data` on an in-memory CSV: all cleaning steps are
row-wise, so the retained table is a `filterMap`. -/
def load_airbnb_data (currentYear : Int) (raws : List AirbnbRaw) : List AirbnbRow :=
  raws.filterMap (cleanAirbnbRow currentYear)

/-! ### Loader/Cleaner of `week6_assignment.py` (`load_and_clean_data`) -/

/-- A raw CSV row with the columns `load_and_clean_data` touches. -/
structure W6Raw where
  price : Option String
  host_since : Option HostDate
  host_id : Option String
  property_type : Option String
deriving DecidableEq

/-- A row after dropna and the year filter, before the price trim and tier
assignment. -/
structure W6Pre where
  price : PandasNum
  host_since : HostDate
  host_start_year : Int
  host_start_month : Nat
  host_id : String
  property_type : String
deriving DecidableEq

/-- The three price tiers. -/
inductive Tier where
  | Budget
  | MidRange
  | Premium
deriving DecidableEq

/-- A row retained by `load_and_clean_data`, carrying its `price_tier`. -/
structure W6Row where
  price : PandasNum
  host_since : HostDate
  host_start_year : Int
  host_start_month : Nat
  host_id : String
  property_type : String
  price_tier : Tier
deriving DecidableEq

/-- Per-row part of `load_and_clean_data` (lines 18-37): coerce `price`
after stripping `[$,]`, derive year/month from `host_since`, drop the row
unless `price`, `host_since`, `host_id` and `property_type` are all present
(line 31), and keep `host_start_year` in `[2008, current_year]`
(lines 34-36). -/
def w6CleanRow (currentYear : Int) (r : W6Raw) : Option W6Pre :=
  match r.price.bind (fun s => toNumericQ (stripPrice s)), r.host_since,
      r.host_id, r.property_type with
  | some price, some hs, some hid, some pt =>
    if decide (2008 ≤ hs.year) && decide (hs.year ≤ currentYear) then
      some { price := price, host_since := hs, host_start_year := hs.year,
             host_start_month := hs.month, host_id := hid, property_type := pt }
    else none
  | _, _, _, _ => none

/-- The `assign_tier` closure of lines 60-66. -/
def assign_tier (low_bound high_bound : PandasNum) (price : PandasNum) : Tier :=
  if PandasNum.leb price low_bound then Tier.Budget
  else if PandasNum.leb price high_bound then Tier.MidRange
  else Tier.Premium

/-- Tier assignment over the trimmed table (lines 48-69): compute the
33rd/66th percentiles of the trimmed prices and tag every row. -/
def tierStage (trimmed : List W6Pre) : List W6Row :=
  trimmed.map (fun r =>
    { price := r.price, host_since := r.host_since,
      host_start_year := r.host_start_year,
      host_start_month := r.host_start_month, host_id := r.host_id,
      property_type := r.property_type,
      price_tier := assign_tier (quantilePN (trimmed.map W6Pre.price) (33/100))
        (quantilePN (trimmed.map W6Pre.price) (66/100)) r.price })

/-- The `price_ranges` display mapping (lines 54-58), with the endpoints of
each formatted range kept as numbers. -/
def tierRanges (trimmed : List W6Pre) : List (Tier × PandasNum × PandasNum) :=
  [(Tier.Budget, minPN (trimmed.map W6Pre.price),
      quantilePN (trimmed.map W6Pre.price) (33/100)),
   (Tier.MidRange, quantilePN (trimmed.map W6Pre.price) (33/100),
      quantilePN (trimmed.map W6Pre.price) (66/100)),
   (Tier.Premium, quantilePN (trimmed.map W6Pre.price) (66/100),
      maxPN (trimmed.map W6Pre.price))]

/-- The table after per-row cleaning (dropna and the year filter). -/
def w6Stage1 (currentYear : Int) (raws : List W6Raw) : List W6Pre :=
  raws.filterMap (w6CleanRow currentYear)

/-- The table after the 5th-95th percentile price trim (lines 42-45):
`df[df['price'].between(low_quantile, high_quantile)]`, inclusive on both
ends. -/
def w6Trimmed (currentYear : Int) (raws : List W6Raw) : List W6Pre :=
  (w6Stage1 currentYear raws).filter (fun r =>
    PandasNum.leb (quantilePN ((w6Stage1 currentYear raws).map W6Pre.price) (5/100))
        r.price &&
      PandasNum.leb r.price
        (quantilePN ((w6Stage1 currentYear raws).map W6Pre.price) (95/100)))

/-- Model of `load_and_clean_data` on an in-memory CSV: per-row cleaning,
then the 5th-95th percentile price trim (lines 42-45), then tier assignment
(lines 48-69).  Returns the cleaned table and the `price_ranges` mapping. -/
def load_and_clean_data (currentYear : Int) (raws : List W6Raw) :
    List W6Row × List (Tier × PandasNum × PandasNum) :=
  if (w6Stage1 currentYear raws).length = 0 then ([], [])
  else if (w6Trimmed currentYear raws).isEmpty then ([], [])
  else (tierStage (w6Trimmed currentYear raws), tierRanges (w6Trimmed currentYear raws))

/-! ### Chart-binding engine

`alt.selection_interval(encodings=['x'], empty='all')` over the
`host_start_year` axis: the empty (default) selection selects every row;
a set selection `[y0, y1]` selects the rows whose year lies in the closed
interval.  `transform_filter(selection)` keeps exactly the selected rows. -/

/-- The brush selection state: default `unset` (selects everything, from
`empty='all'`) or a dragged interval. -/
inductive Brush where
  | unset
  | set (y0 y1 : Int)
deriving DecidableEq

/-- The predicate a selection applies to a row's `host_start_year`. -/
def brushPred (b : Brush) (yr : Int) : Bool :=
  match b with
  | .unset => true
  | .set y0 y1 => decide (y0 ≤ yr) && decide (yr ≤ y1)

/-- The five main-chart metrics of `y_axis_options` (lines 84-90). -/
inductive Metric where
  | numHosts
  | reviewsPerMonth
  | price
  | reviewScoresRating
  | calculatedHostListingsCount
deriving DecidableEq

/-- The column-name each metric maps to in `y_axis_options` (the sentinel
`num_hosts` marks the count aggregation). -/
def y_axis_options : Metric → String
  | .numHosts => "num_hosts"
  | .reviewsPerMonth => "reviews_per_month"
  | .price => "price"
  | .reviewScoresRating => "review_scores_rating"
  | .calculatedHostListingsCount => "calculated_host_listings_count"

/-- Looking a numeric column up in a cleaned row by field name (the Vega
encoding `mean(column)` reads this column). -/
def colVal (field : String) (r : AirbnbRow) : Option PandasNum :=
  if field = "price" then some r.price
  else if field = "reviews_per_month" then some r.reviews_per_month
  else if field = "review_scores_rating" then some r.review_scores_rating
  else if field = "calculated_host_listings_count" then
    some r.calculated_host_listings_count
  else none

/-- The aggregation the main chart encodes on its y axis. -/
inductive AggSpec where
  | countHostId
  | meanCol (field : String)
deriving DecidableEq

/-- Lines 113-124: `count(host_id)` exactly when the selected option is the
`num_hosts` sentinel, otherwise `mean(column)`. -/
def mainChartAgg (m : Metric) : AggSpec :=
  if y_axis_options m = "num_hosts" then AggSpec.countHostId
  else AggSpec.meanCol (y_axis_options m)

/-- Arithmetic mean of a list of rationals. -/
def arithMean (l : List ℚ) : ℚ :=
  l.sum / l.length

/-- The finite part of a pandas float. -/
def finPart : PandasNum → Option ℚ
  | .val q => some q
  | _ => none

/-- Vega-Lite `mean` over a column: the arithmetic mean when every value is
finite; with an infinity present the result is modelled as `pinf` (the
cleaned data the charts read never hits this branch in the theorems
below). -/
def meanPN (l : List PandasNum) : PandasNum :=
  if l.all (fun x => (finPart x).isSome) then
    PandasNum.val ((l.filterMap finPart).sum / l.length)
  else PandasNum.pinf

/-- The rows of one `host_start_year` group of the main chart. -/
def yearGroup (df : List AirbnbRow) (yr : Int) : List AirbnbRow :=
  df.filter (fun r => decide (r.host_start_year = yr))

/-- Evaluating an aggregation over a group of rows.  `count(host_id)`
counts the non-null `host_id` cells; every cleaned row carries one (the
dropna at line 34 includes `host_id`), so it is the group size. -/
def evalAgg (a : AggSpec) (rows : List AirbnbRow) : PandasNum :=
  match a with
  | .countHostId => PandasNum.val rows.length
  | .meanCol f => meanPN (rows.filterMap (colVal f))

/-- The main chart's aggregated y value for one year group. -/
def mainChartValue (m : Metric) (df : List AirbnbRow) (yr : Int) : PandasNum :=
  evalAgg (mainChartAgg m) (yearGroup df yr)

/-- Row set of the price-distribution histogram (lines 140-149): the
cleaned table filtered by the shared `time_selection`. -/
def price_dist_chart (df : List AirbnbRow) (b : Brush) : List AirbnbRow :=
  df.filter (fun r => brushPred b r.host_start_year)

/-- Row set of the top-neighborhoods bar chart (lines 154-163). -/
def neighborhood_chart (df : List AirbnbRow) (b : Brush) : List AirbnbRow :=
  df.filter (fun r => brushPred b r.host_start_year)

/-- Row set of the superhost-status bar chart (lines 172-182). -/
def superhost_chart (df : List AirbnbRow) (b : Brush) : List AirbnbRow :=
  df.filter (fun r => brushPred b r.host_start_year)

/-- Row set of the room-type bar chart (lines 188-197). -/
def room_type_chart (df : List AirbnbRow) (b : Brush) : List AirbnbRow :=
  df.filter (fun r => brushPred b r.host_start_year)

/-- The chart descriptions the `datavisualization_assignment.py` engine
hands to the renderer: the main chart aggregates over the whole table, the
four secondary charts over their brush-filtered row sets. -/
structure DVCharts where
  metric : Metric
  mainRows : List AirbnbRow
  priceDistRows : List AirbnbRow
  neighborhoodRows : List AirbnbRow
  superhostRows : List AirbnbRow
  roomTypeRows : List AirbnbRow
deriving DecidableEq

/-- The pure chart-binding engine of `datavisualization_assignment.py`:
table + brush state + metric widget state to chart descriptions. -/
def renderDV (df : List AirbnbRow) (b : Brush) (m : Metric) : DVCharts :=
  { metric := m
    mainRows := df
    priceDistRows := price_dist_chart df b
    neighborhoodRows := neighborhood_chart df b
    superhostRows := superhost_chart df b
    roomTypeRows := room_type_chart df b }

/-- Count of the rows of a chart's row set that carry a given key value. -/
def countKey {α : Type} [DecidableEq α] (key : AirbnbRow → α) (rows : List AirbnbRow)
    (v : α) : ℕ :=
  rows.countP (fun r => decide (key r = v))

/-! ### Chart engine of `week6_assignment.py` -/

/-- Row set of the brushed price histogram (lines 103-111): filtered by
`brush_selection`, which lives on the host-year chart of the same compound
chart. -/
def w6_price_dist_chart (df : List W6Row) (b : Brush) : List W6Row :=
  df.filter (fun r => brushPred b r.host_start_year)

/-- The `seasonal_df` of lines 140-143: the table filtered by the price-tier
dropdown only (`'All'` imposes no constraint).  The seasonal chart is a
separate `st.altair_chart` call and carries no `transform_filter`, so the
brush does not reach it. -/
def seasonal_df (df : List W6Row) (sel : Option Tier) : List W6Row :=
  match sel with
  | none => df
  | some t => df.filter (fun r => decide (r.price_tier = t))

/-- The chart descriptions the `week6_assignment.py` engine hands to the
renderer. -/
structure W6Charts where
  selectedTier : Option Tier
  hostYearRows : List W6Row
  priceDistRows : List W6Row
  seasonalRows : List W6Row
deriving DecidableEq

/-- The pure chart-binding engine of `week6_assignment.py`. -/
def renderW6 (df : List W6Row) (b : Brush) (sel : Option Tier) : W6Charts :=
  { selectedTier := sel
    hostYearRows := df
    priceDistRows := w6_price_dist_chart df b
    seasonalRows := seasonal_df df sel }

/-- Count of the rows of a week6 chart's row set that carry a given key. -/
def countKeyW6 {α : Type} [DecidableEq α] (key : W6Row → α) (rows : List W6Row)
    (v : α) : ℕ :=
  rows.countP (fun r => decide (key r = v))

/-! ### Whole-app failure behaviour -/

/-- Outcome of one run of `datavisualization_assignment.py`.  `read_csv`
at line 14 has no try/except around it: a missing source file raises an
uncaught `FileNotFoundError` and the run dies. -/
inductive DVRun where
  | fatal (msg : String)
  | charts (c : DVCharts)
deriving DecidableEq

/-- Running `datavisualization_assignment.py` against an input file
(`none` = the file is absent or unreadable). -/
def runDVApp (currentYear : Int) (file : Option (List AirbnbRaw)) (b : Brush)
    (m : Metric) : DVRun :=
  match file with
  | none => DVRun.fatal ("FileNotFoundError")
  | some raws => DVRun.charts (renderDV (load_airbnb_data currentYear raws) b m)

/-- The possible states of the week6 source file as `pd.read_csv` sees it:
absent (raises `FileNotFoundError`), present but unreadable or unparsable
(raises some other exception, carried as a message), or readable with the
given rows. -/
inductive W6File where
  | missing
  | unreadable (msg : String)
  | contents (raws : List W6Raw)
deriving DecidableEq

/-- Outcome of one run of `week6_assignment.py`: an uncaught exception
(fatal to the run), the recoverable empty-dataset path (`st.error` +
`st.stop`, no chart construction), or the built charts. -/
inductive W6Run where
  | fatal (msg : String)
  | emptyMessage
  | charts (c : W6Charts)
deriving DecidableEq

/-- `load_and_clean_data` reading from a file.  The except clause of lines
9-13 names only `FileNotFoundError`: a missing file becomes an empty table
(plus an error message), but any other `read_csv` failure — a
present-but-unreadable file, a parse error — propagates uncaught. -/
def load_and_clean_data_file (currentYear : Int) (file : W6File) :
    Except String (List W6Row × List (Tier × PandasNum × PandasNum)) :=
  match file with
  | W6File.missing => Except.ok ([], [])
  | W6File.unreadable msg => Except.error msg
  | W6File.contents raws => Except.ok (load_and_clean_data currentYear raws)

/-- Running `week6_assignment.py` against an input file: an uncaught loader
exception kills the run; otherwise the guard at lines 80-82 stops before
any chart is built when the cleaned table is empty. -/
def runW6App (currentYear : Int) (file : W6File) (b : Brush)
    (sel : Option Tier) : W6Run :=
  match load_and_clean_data_file currentYear file with
  | Except.error msg => W6Run.fatal msg
  | Except.ok dfr =>
    if dfr.1.isEmpty then W6Run.emptyMessage
    else W6Run.charts (renderW6 dfr.1 b sel)

/-! ### Example rows used by witnesses and counterexamples -/

/-- A fully valid raw row for `load_airbnb_data`. -/
def exCleanRaw : AirbnbRaw :=
  { host_since := some ⟨2015, 6⟩, price := some ("100"),
    reviews_per_month := some ("2.5"), review_scores_rating := some ("4.8"),
    calculated_host_listings_count := some ("1"), host_id := some ("h1"),
    neighbourhood_cleansed := some ("Downtown"),
    host_is_superhost := some ("t"), room_type := some ("Entire home") }

/-- The cleaned row `load_airbnb_data` produces from `exCleanRaw`. -/
def exCleanRow : AirbnbRow :=
  { host_since := ⟨2015, 6⟩, host_start_year := 2015,
    price := PandasNum.val 100, reviews_per_month := PandasNum.val (5/2),
    review_scores_rating := PandasNum.val (24/5),
    calculated_host_listings_count := PandasNum.val 1, host_id := "h1",
    neighbourhood_cleansed := "Downtown", host_is_superhost := true,
    room_type := "Entire home" }

/-- A raw week6 row with a negative price and every required column
present. -/
def exNegRaw : W6Raw :=
  { price := some ("-50"), host_since := some ⟨2015, 3⟩,
    host_id := some ("h1"), property_type := some ("Apartment") }

/-! ### C1: the cleaning invariant -/

/-- The invariant `load_airbnb_data` guarantees for a retained row. -/
def C1Prop (y : Int) (raws : List AirbnbRaw) (row : AirbnbRow) : Prop :=
  PandasNum.val 0 < row.price ∧
  (2008 ≤ row.host_start_year ∧ row.host_start_year ≤ y) ∧
  (∃ m : ℚ, row.reviews_per_month = PandasNum.val m ∧ 0 ≤ m) ∧
  ∃ raw ∈ raws, cleanAirbnbRow y raw = some row ∧
    raw.price.isSome ∧ raw.reviews_per_month.isSome ∧
    raw.review_scores_rating.isSome ∧
    raw.calculated_host_listings_count.isSome ∧ raw.host_since.isSome ∧
    raw.host_id.isSome ∧ raw.neighbourhood_cleansed.isSome ∧
    raw.host_is_superhost.isSome ∧ raw.room_type.isSome

/-- C1 (amended to the `load_airbnb_data` variant): every row retained by
`load_airbnb_data` has `price > 0`, `host_start_year` between 2008 and the
current year, a finite non-negative `reviews_per_month`, and comes from a
raw row whose required columns are all non-missing. -/
theorem c1_cleaning_invariant (y : Int) (raws : List AirbnbRaw) (row : AirbnbRow)
    (hmem : row ∈ load_airbnb_data y raws) : C1Prop y raws row := by
  obtain ⟨raw, hraw, hclean⟩ := List.mem_filterMap.mp hmem
  have hkeep := hclean
  unfold cleanAirbnbRow at hclean
  split at hclean
  case h_2 => exact absurd hclean (by simp)
  case h_1 price rpm rsr chlc hs hid nb shRaw rt hprice hrpm hrsr hchlc hhs
      hhid hnb hsh hrt =>
    split at hclean
    case isFalse => exact absurd hclean (by simp)
    case isTrue hcond =>
      split at hclean
      case h_2 => exact absurd hclean (by simp)
      case h_1 sh hmapped =>
        split at hclean
        case isFalse => exact absurd hclean (by simp)
        case isTrue hpos =>
          simp only [Option.some.injEq] at hclean
          subst hclean
          simp only [Bool.and_eq_true, bne_iff_ne, ne_eq, decide_eq_true_eq]
            at hcond
          obtain ⟨⟨⟨hnotinf, hge0⟩, hy1⟩, hy2⟩ := hcond
          simp only [Bool.not_eq_true'] at hpos
          have hps : raw.price.isSome := by
            obtain ⟨s, hs, _⟩ := Option.bind_eq_some.mp hprice
            rw [hs]; rfl
          have hrpms : raw.reviews_per_month.isSome := by
            obtain ⟨s, hs, _⟩ := Option.bind_eq_some.mp hrpm
            rw [hs]; rfl
          have hrsrs : raw.review_scores_rating.isSome := by
            obtain ⟨s, hs, _⟩ := Option.bind_eq_some.mp hrsr
            rw [hs]; rfl
          have hchlcs : raw.calculated_host_listings_count.isSome := by
            obtain ⟨s, hs, _⟩ := Option.bind_eq_some.mp hchlc
            rw [hs]; rfl
          refine ⟨?_, ⟨hy1, hy2⟩, ?_, raw, hraw, hkeep, hps, hrpms, hrsrs,
            hchlcs, Option.isSome_iff_exists.mpr ⟨_, hhs⟩, Option.isSome_iff_exists.mpr ⟨_, hhid⟩,
            Option.isSome_iff_exists.mpr ⟨_, hnb⟩, Option.isSome_iff_exists.mpr ⟨_, hsh⟩,
            Option.isSome_iff_exists.mpr ⟨_, hrt⟩⟩
          · have : ¬ (price ≤ PandasNum.val 0) := by
              intro hle
              rw [← PandasNum.leb_iff_le] at hle
              rw [hpos] at hle
              exact Bool.noConfusion hle
            exact lt_of_not_le this
          · have hge : PandasNum.val 0 ≤ rpm := PandasNum.leb_iff_le _ _ |>.mp hge0
            match rpm, hnotinf, hge with
            | PandasNum.val m, _, hge => exact ⟨m, rfl, PandasNum.val_le_val.mp hge⟩
            | PandasNum.ninf, _, hge => exact absurd hge (PandasNum.not_val_le_ninf)

/-- Witness for C1: the invariant holds on a concrete one-row table. -/
theorem c1_cleaning_invariant_witness :
    exCleanRow ∈ load_airbnb_data 2025 [exCleanRaw] ∧
      C1Prop 2025 [exCleanRaw] exCleanRow :=
  ⟨by decide, c1_cleaning_invariant 2025 [exCleanRaw] exCleanRow (by decide)⟩

/-- Counterexample to C1 as stated across all variants: the week6 Loader
retains a row whose price is `-50`, because `load_and_clean_data` never
filters `price > 0`; the only price constraints are the dropna and the
5th-95th percentile trim, which a lone negative price survives. -/
theorem c1_counterexample :
    ∃ r ∈ (load_and_clean_data 2025 [exNegRaw]).1,
      ¬ (PandasNum.val 0 < r.price) := by decide

/-! ### C2: the tier partition -/

theorem tierStage_map_price (t : List W6Pre) :
    (tierStage t).map W6Row.price = t.map W6Pre.price := by
  unfold tierStage
  rw [List.map_map]
  rfl

theorem mem_tierStage {t : List W6Pre} {r : W6Row} (h : r ∈ tierStage t) :
    r.price ∈ t.map W6Pre.price ∧
      r.price_tier = assign_tier (quantilePN (t.map W6Pre.price) (33/100))
        (quantilePN (t.map W6Pre.price) (66/100)) r.price := by
  unfold tierStage at h
  obtain ⟨pre, hpre, hr⟩ := List.mem_map.mp h
  subst hr
  exact ⟨List.mem_map.mpr ⟨pre, hpre, rfl⟩, rfl⟩

theorem load_and_clean_data_cases (y : Int) (raws : List W6Raw) :
    (load_and_clean_data y raws).1 = [] ∨
      (w6Trimmed y raws ≠ [] ∧
        (load_and_clean_data y raws).1 = tierStage (w6Trimmed y raws)) := by
  unfold load_and_clean_data
  split
  · left; rfl
  · split
    case isTrue h => left; rfl
    case isFalse h =>
      right
      exact ⟨fun hnil => h (by rw [hnil]; rfl), rfl⟩

theorem assign_tier_iff (lo hi p : PandasNum) (hlohi : lo ≤ hi) :
    (assign_tier lo hi p = Tier.Budget ↔ p ≤ lo) ∧
    (assign_tier lo hi p = Tier.MidRange ↔ (lo < p ∧ p ≤ hi)) ∧
    (assign_tier lo hi p = Tier.Premium ↔ hi < p) := by
  unfold assign_tier
  by_cases h1 : p ≤ lo
  · rw [if_pos ((PandasNum.leb_iff_le p lo).mpr h1)]
    refine ⟨⟨fun _ => h1, fun _ => rfl⟩, ⟨fun h => Tier.noConfusion h, ?_⟩,
      ⟨fun h => Tier.noConfusion h, fun hc => absurd hc (not_lt.mpr (le_trans h1 hlohi))⟩⟩
    intro ⟨hlt, _⟩
    exact absurd hlt (not_lt.mpr h1)
  · rw [if_neg (fun hc => h1 ((PandasNum.leb_iff_le p lo).mp hc))]
    by_cases h2 : p ≤ hi
    · rw [if_pos ((PandasNum.leb_iff_le p hi).mpr h2)]
      refine ⟨⟨fun h => Tier.noConfusion h, fun hc => absurd hc h1⟩,
        ⟨fun _ => ⟨lt_of_not_le h1, h2⟩, fun _ => rfl⟩,
        ⟨fun h => Tier.noConfusion h, fun hc => absurd hc (not_lt.mpr h2)⟩⟩
    · rw [if_neg (fun hc => h2 ((PandasNum.leb_iff_le p hi).mp hc))]
      refine ⟨⟨fun h => Tier.noConfusion h, fun hc => absurd (le_trans hc hlohi) h2⟩,
        ⟨fun h => Tier.noConfusion h, ?_⟩,
        ⟨fun _ => lt_of_not_le h2, fun _ => rfl⟩⟩
      intro ⟨_, hc⟩
      exact absurd hc h2

/-- The tier-partition property over a trimmed table `df` with boundary
values `mn <= lo <= hi <= mx`. -/
def TierPartition (df : List W6Row) (mn lo hi mx : PandasNum) : Prop :=
  (mn ≤ lo ∧ lo ≤ hi ∧ hi ≤ mx) ∧
  (∀ p : PandasNum, (mn ≤ p ∧ p ≤ mx) ↔
    ((mn ≤ p ∧ p ≤ lo) ∨ (lo < p ∧ p ≤ hi) ∨ (hi < p ∧ p ≤ mx))) ∧
  (∀ p : PandasNum,
    ¬ ((mn ≤ p ∧ p ≤ lo) ∧ (lo < p ∧ p ≤ hi)) ∧
    ¬ ((mn ≤ p ∧ p ≤ lo) ∧ (hi < p ∧ p ≤ mx)) ∧
    ¬ ((lo < p ∧ p ≤ hi) ∧ (hi < p ∧ p ≤ mx))) ∧
  (∀ r ∈ df, (mn ≤ r.price ∧ r.price ≤ mx) ∧
    r.price_tier = assign_tier lo hi r.price ∧
    (r.price_tier = Tier.Budget ↔ r.price ≤ lo) ∧
    (r.price_tier = Tier.MidRange ↔ (lo < r.price ∧ r.price ≤ hi)) ∧
    (r.price_tier = Tier.Premium ↔ hi < r.price))

/-- The partition property instantiated at the table and the boundaries
`load_and_clean_data` actually computes. -/
def C2Prop (y : Int) (raws : List W6Raw) : Prop :=
  TierPartition (load_and_clean_data y raws).1
    (minPN ((load_and_clean_data y raws).1.map W6Row.price))
    (quantilePN ((load_and_clean_data y raws).1.map W6Row.price) (33/100))
    (quantilePN ((load_and_clean_data y raws).1.map W6Row.price) (66/100))
    (maxPN ((load_and_clean_data y raws).1.map W6Row.price))

/-- C2: in the tiered variant the 33rd/66th percentile boundaries of the
trimmed price distribution partition `[min, max]` into three contiguous
non-overlapping intervals, and every trimmed row gets exactly the tier label
`assign_tier` computes (Budget iff `price <= low`, Mid-Range iff
`low < price <= high`, Premium iff `high < price`). -/
theorem c2_tier_partition (y : Int) (raws : List W6Raw)
    (hne : (load_and_clean_data y raws).1 ≠ []) : C2Prop y raws := by
  rcases load_and_clean_data_cases y raws with hnil | ⟨htne, heq⟩
  · exact absurd hnil hne
  · unfold C2Prop TierPartition
    rw [heq, tierStage_map_price]
    have hpne : w6Trimmed y raws ≠ [] := htne
    have hmapne : (w6Trimmed y raws).map W6Pre.price ≠ [] := by
      intro hc
      exact hpne (List.map_eq_nil_iff.mp hc)
    have h33 : (0 : ℚ) ≤ 33/100 := by norm_num
    have h66 : (33 : ℚ)/100 ≤ 66/100 := by norm_num
    have h66' : (66 : ℚ)/100 ≤ 1 := by norm_num
    have h33' : (33 : ℚ)/100 ≤ 1 := by norm_num
    have h66'' : (0 : ℚ) ≤ 66/100 := by norm_num
    have hmnlo := minPN_le_quantilePN hmapne h33 h33'
    have hlohi := quantilePN_mono hmapne h33 h66 h66'
    have hhimx := quantilePN_le_maxPN hmapne h66'' h66'
    refine ⟨⟨hmnlo, hlohi, hhimx⟩, ?_, ?_, ?_⟩
    · intro p
      constructor
      · rintro ⟨hmnp, hpmx⟩
        rcases le_or_lt p (quantilePN ((w6Trimmed y raws).map W6Pre.price) (33/100))
          with hplo | hlop
        · exact Or.inl ⟨hmnp, hplo⟩
        · rcases le_or_lt p (quantilePN ((w6Trimmed y raws).map W6Pre.price) (66/100))
            with hphi | hhip
          · exact Or.inr (Or.inl ⟨hlop, hphi⟩)
          · exact Or.inr (Or.inr ⟨hhip, hpmx⟩)
      · rintro (⟨hmnp, hplo⟩ | ⟨hlop, hphi⟩ | ⟨hhip, hpmx⟩)
        · exact ⟨hmnp, le_trans hplo (le_trans hlohi hhimx)⟩
        · exact ⟨le_trans hmnlo (le_of_lt hlop), le_trans hphi hhimx⟩
        · exact ⟨le_trans hmnlo (le_trans hlohi (le_of_lt hhip)), hpmx⟩
    · intro p
      refine ⟨?_, ?_, ?_⟩
      · rintro ⟨⟨_, hplo⟩, ⟨hlop, _⟩⟩
        exact absurd hlop (not_lt.mpr hplo)
      · rintro ⟨⟨_, hplo⟩, ⟨hhip, _⟩⟩
        exact absurd (lt_of_le_of_lt (le_trans hplo hlohi) hhip)
          (lt_irrefl p)
      · rintro ⟨⟨_, hphi⟩, ⟨hhip, _⟩⟩
        exact absurd hhip (not_lt.mpr hphi)
    · intro r hr
      obtain ⟨hpmem, htier⟩ := mem_tierStage hr
      have hbounds : minPN ((w6Trimmed y raws).map W6Pre.price) ≤ r.price ∧
          r.price ≤ maxPN ((w6Trimmed y raws).map W6Pre.price) :=
        ⟨minPN_le_mem hpmem, mem_le_maxPN hpmem⟩
      have hiffs := assign_tier_iff
        (quantilePN ((w6Trimmed y raws).map W6Pre.price) (33/100))
        (quantilePN ((w6Trimmed y raws).map W6Pre.price) (66/100)) r.price hlohi
      refine ⟨hbounds, htier, ?_, ?_, ?_⟩
      · rw [htier]; exact hiffs.1
      · rw [htier]; exact hiffs.2.1
      · rw [htier]; exact hiffs.2.2

/-- Three valid week6 raw rows with prices 10, 20, 30. -/
def exW6Raws : List W6Raw :=
  [{ price := some ("10"), host_since := some ⟨2015, 1⟩,
     host_id := some ("a"), property_type := some ("Apartment") },
   { price := some ("20"), host_since := some ⟨2016, 2⟩,
     host_id := some ("b"), property_type := some ("House") },
   { price := some ("30"), host_since := some ⟨2017, 3⟩,
     host_id := some ("c"), property_type := some ("Condo") }]

/-- Witness for C2 on a concrete three-row table. -/
theorem c2_tier_partition_witness :
    (load_and_clean_data 2025 exW6Raws).1 ≠ [] ∧ C2Prop 2025 exW6Raws :=
  ⟨by decide, c2_tier_partition 2025 exW6Raws (by decide)⟩

/-! ### C3, C4: brush filtering of the secondary charts -/

theorem filter_length_mono {α : Type} {p q : α → Bool} (l : List α)
    (h : ∀ a ∈ l, p a = true → q a = true) :
    (l.filter p).length ≤ (l.filter q).length := by
  rw [← List.countP_eq_length_filter, ← List.countP_eq_length_filter]
  exact List.countP_mono_left h

theorem brushPred_sub {y0 y1 y0' y1' yr : Int} (h0 : y0 ≤ y0') (h1 : y1' ≤ y1)
    (h : brushPred (Brush.set y0' y1') yr = true) :
    brushPred (Brush.set y0 y1) yr = true := by
  simp only [brushPred, Bool.and_eq_true, decide_eq_true_eq] at h ⊢
  omega

/-- A cleaned week6 row whose host started in 2015 (Budget tier). -/
def exW6Row2015 : W6Row :=
  { price := PandasNum.val 10, host_since := ⟨2015, 1⟩, host_start_year := 2015,
    host_start_month := 1, host_id := "a", property_type := "Apartment",
    price_tier := Tier.Budget }

/-- Exact filtering and narrowing monotonicity of every brushed secondary
chart, for a brush `[y0, y1]` and a sub-range `[y0', y1']`. -/
def C3Prop (df : List AirbnbRow) (w6 : List W6Row) (m : Metric)
    (y0 y1 y0' y1' : Int) : Prop :=
  ((renderDV df (Brush.set y0 y1) m).priceDistRows = df.filter (fun r =>
    decide (y0 ≤ r.host_start_year) && decide (r.host_start_year ≤ y1))) ∧
  ((renderDV df (Brush.set y0 y1) m).neighborhoodRows = df.filter (fun r =>
    decide (y0 ≤ r.host_start_year) && decide (r.host_start_year ≤ y1))) ∧
  ((renderDV df (Brush.set y0 y1) m).superhostRows = df.filter (fun r =>
    decide (y0 ≤ r.host_start_year) && decide (r.host_start_year ≤ y1))) ∧
  ((renderDV df (Brush.set y0 y1) m).roomTypeRows = df.filter (fun r =>
    decide (y0 ≤ r.host_start_year) && decide (r.host_start_year ≤ y1))) ∧
  ((renderW6 w6 (Brush.set y0 y1) none).priceDistRows = w6.filter (fun r =>
    decide (y0 ≤ r.host_start_year) && decide (r.host_start_year ≤ y1))) ∧
  ((renderDV df (Brush.set y0' y1') m).priceDistRows.length ≤
    (renderDV df (Brush.set y0 y1) m).priceDistRows.length) ∧
  ((renderDV df (Brush.set y0' y1') m).neighborhoodRows.length ≤
    (renderDV df (Brush.set y0 y1) m).neighborhoodRows.length) ∧
  ((renderDV df (Brush.set y0' y1') m).superhostRows.length ≤
    (renderDV df (Brush.set y0 y1) m).superhostRows.length) ∧
  ((renderDV df (Brush.set y0' y1') m).roomTypeRows.length ≤
    (renderDV df (Brush.set y0 y1) m).roomTypeRows.length) ∧
  ((renderW6 w6 (Brush.set y0' y1') none).priceDistRows.length ≤
    (renderW6 w6 (Brush.set y0 y1) none).priceDistRows.length)

/-- C3: with the brush set to `[y0, y1]`, every secondary chart aggregates
over exactly the cleaned rows whose `host_start_year` lies in `[y0, y1]`,
and narrowing the range to a sub-interval `[y0', y1']` never increases any
secondary chart's row count. -/
theorem c3_brush_subrange (df : List AirbnbRow) (w6 : List W6Row) (m : Metric)
    (y0 y1 y0' y1' : Int) (h0 : y0 ≤ y0') (h1 : y1' ≤ y1) :
    C3Prop df w6 m y0 y1 y0' y1' := by
  refine ⟨rfl, rfl, rfl, rfl, rfl, ?_, ?_, ?_, ?_, ?_⟩ <;>
    exact filter_length_mono _ (fun r _ h => brushPred_sub h0 h1 h)

/-- Witness for C3 at a concrete table and concrete nested ranges. -/
theorem c3_brush_subrange_witness :
    (2010 : Int) ≤ 2012 ∧ (2018 : Int) ≤ 2020 ∧
      C3Prop [exCleanRow] [exW6Row2015] Metric.numHosts 2010 2020 2012 2018 :=
  ⟨by decide, by decide,
    c3_brush_subrange [exCleanRow] [exW6Row2015] Metric.numHosts
      2010 2020 2012 2018 (by decide) (by decide)⟩

/-- Equality of every secondary chart with the unfiltered table when the
brush is unset, both as row sets and as the aggregates the charts draw. -/
def C4Prop (df : List AirbnbRow) (w6 : List W6Row) (m : Metric) : Prop :=
  ((renderDV df Brush.unset m).priceDistRows = df) ∧
  ((renderDV df Brush.unset m).neighborhoodRows = df) ∧
  ((renderDV df Brush.unset m).superhostRows = df) ∧
  ((renderDV df Brush.unset m).roomTypeRows = df) ∧
  ((renderW6 w6 Brush.unset none).priceDistRows = w6) ∧
  ((renderDV df Brush.unset m).priceDistRows.map AirbnbRow.price
    = df.map AirbnbRow.price) ∧
  (∀ nb : String, countKey AirbnbRow.neighbourhood_cleansed
    (renderDV df Brush.unset m).neighborhoodRows nb
    = countKey AirbnbRow.neighbourhood_cleansed df nb) ∧
  (∀ sh : Bool, countKey AirbnbRow.host_is_superhost
    (renderDV df Brush.unset m).superhostRows sh
    = countKey AirbnbRow.host_is_superhost df sh) ∧
  (∀ rt : String, countKey AirbnbRow.room_type
    (renderDV df Brush.unset m).roomTypeRows rt
    = countKey AirbnbRow.room_type df rt) ∧
  ((renderW6 w6 Brush.unset none).priceDistRows.map W6Row.price
    = w6.map W6Row.price)

/-- C4: with the brush in its default unset state (`empty='all'`), every
secondary chart's row set and aggregates coincide with those of the full
cleaned table. -/
theorem c4_unset_brush (df : List AirbnbRow) (w6 : List W6Row) (m : Metric) :
    C4Prop df w6 m := by
  have hdv : df.filter (fun r => brushPred Brush.unset r.host_start_year) = df :=
    List.filter_true df
  have hw6 : w6.filter (fun r => brushPred Brush.unset r.host_start_year) = w6 :=
    List.filter_true w6
  refine ⟨hdv, hdv, hdv, hdv, hw6, ?_, ?_, ?_, ?_, ?_⟩
  · rw [show (renderDV df Brush.unset m).priceDistRows
      = df.filter (fun r => brushPred Brush.unset r.host_start_year) from rfl, hdv]
  · intro nb
    rw [show (renderDV df Brush.unset m).neighborhoodRows
      = df.filter (fun r => brushPred Brush.unset r.host_start_year) from rfl, hdv]
  · intro sh
    rw [show (renderDV df Brush.unset m).superhostRows
      = df.filter (fun r => brushPred Brush.unset r.host_start_year) from rfl, hdv]
  · intro rt
    rw [show (renderDV df Brush.unset m).roomTypeRows
      = df.filter (fun r => brushPred Brush.unset r.host_start_year) from rfl, hdv]
  · rw [show (renderW6 w6 Brush.unset none).priceDistRows
      = w6.filter (fun r => brushPred Brush.unset r.host_start_year) from rfl, hw6]

/-! ### C5: the seasonal chart and the two filters -/

/-- The price-tier dropdown's equality filter; `none` is the `'All'` option
and imposes no constraint. -/
def tierPred (sel : Option Tier) (r : W6Row) : Bool :=
  match sel with
  | none => true
  | some t => decide (r.price_tier = t)

/-- Counterexample to C5 as stated: with the brush set to `[2016, 2016]`
and the dropdown on `'All'`, the seasonal chart still contains the 2015 row,
but the conjunction of the dropdown filter and the brush predicate excludes
it — the seasonal chart is a separate `st.altair_chart` call with no
`transform_filter`, so the brush never composes into it. -/
theorem c5_counterexample :
    (renderW6 [exW6Row2015] (Brush.set 2016 2016) none).seasonalRows ≠
      [exW6Row2015].filter (fun r =>
        tierPred none r && brushPred (Brush.set 2016 2016) r.host_start_year) := by
  decide

/-- Membership in the seasonal chart is governed by the dropdown alone, and
the chart is independent of the brush state. -/
def C5Prop (df : List W6Row) (b : Brush) (sel : Option Tier) : Prop :=
  (∀ r : W6Row, r ∈ (renderW6 df b sel).seasonalRows ↔
    (r ∈ df ∧ tierPred sel r = true)) ∧
  (∀ b' : Brush, (renderW6 df b sel).seasonalRows
    = (renderW6 df b' sel).seasonalRows)

/-- C5 (amended): a row is counted in the tier-scoped seasonal chart if and
only if it belongs to the cleaned table and satisfies the price-tier
dropdown's equality filter (`'All'` = no constraint); the brush predicate
does not apply to this chart. -/
theorem c5_seasonal_tier_only (df : List W6Row) (b : Brush) (sel : Option Tier) :
    C5Prop df b sel := by
  constructor
  · intro r
    show r ∈ seasonal_df df sel ↔ _
    match sel with
    | none => simp [seasonal_df, tierPred]
    | some t => simp [seasonal_df, tierPred, List.mem_filter]
  · intro b'
    rfl

/-! ### C6: price-string coercion -/

/-- A week6 raw row whose price cell is the non-numeric `N/A`. -/
def exNARaw : W6Raw :=
  { price := some ("N/A"), host_since := some ⟨2015, 3⟩,
    host_id := some ("h1"), property_type := some ("Apartment") }

/-- A week6 raw row whose price cell is `$1,200`. -/
def exDollarW6Raw : W6Raw :=
  { price := some ("$1,200"), host_since := some ⟨2015, 3⟩,
    host_id := some ("h1"), property_type := some ("Apartment") }

/-- A `load_airbnb_data` raw row whose price cell is `$1,200` and whose
other columns are all valid. -/
def exDollarRaw : AirbnbRaw :=
  { host_since := some ⟨2015, 6⟩, price := some ("$1,200"),
    reviews_per_month := some ("2.5"), review_scores_rating := some ("4.8"),
    calculated_host_listings_count := some ("1"), host_id := some ("h1"),
    neighbourhood_cleansed := some ("Downtown"),
    host_is_superhost := some ("t"), room_type := some ("Entire home") }

/-- Counterexample to C6 as stated for every Loader: `load_airbnb_data`
applies `pd.to_numeric` with no `[$,]` stripping (lines 29-30), so
`"$1,200"` coerces to missing, not 1200, and the row is dropped by the
dropna on `price`. -/
theorem c6_counterexample :
    toNumericQ ("$1,200") ≠ some (PandasNum.val 1200) ∧
      cleanAirbnbRow 2025 exDollarRaw = none := by decide

/-- C6 (amended to the week6 Loader): `load_and_clean_data` strips currency
symbols and thousands separators before coercion, so `"$1,200"` coerces to
1200 and `"950"` to 950, while the non-numeric `"N/A"` coerces to missing
and its row is dropped because price is a required column; in
`load_airbnb_data` no stripping happens and a `"$1,200"` row is dropped. -/
theorem c6_price_coercion :
    toNumericQ (stripPrice ("$1,200")) = some (PandasNum.val 1200) ∧
    toNumericQ (stripPrice ("950")) = some (PandasNum.val 950) ∧
    toNumericQ (stripPrice ("N/A")) = none ∧
    w6CleanRow 2025 exNARaw = none ∧
    (∃ r : W6Pre, w6CleanRow 2025 exDollarW6Raw = some r ∧
      r.price = PandasNum.val 1200) ∧
    toNumericQ ("$1,200") = none ∧
    cleanAirbnbRow 2025 exDollarRaw = none := by decide

/-! ### C7: failure policy -/

/-- Counterexample to C7 as stated: in `datavisualization_assignment.py`
the `read_csv` at line 14 has no try/except, so a missing source file is
fatal to the run; and even in `week6_assignment.py` a present-but-unreadable
file is fatal, because the except clause of lines 9-13 names only
`FileNotFoundError`, so any other `read_csv` exception propagates
uncaught.  Both contradict the claimed recoverable empty-dataset
condition. -/
theorem c7_counterexample :
    runDVApp 2025 none Brush.unset Metric.numHosts
        = DVRun.fatal ("FileNotFoundError") ∧
      runW6App 2025 (W6File.unreadable ("PermissionError")) Brush.unset none
        = W6Run.fatal ("PermissionError") :=
  ⟨rfl, rfl⟩

/-- The week6 failure policy: a missing file or an empty-after-filter table
yields the user-visible empty message with chart construction halted,
charts are only ever built over a non-empty table, and an unreadable file
is fatal (only `FileNotFoundError` is caught). -/
def C7Prop (y : Int) (file : W6File) (b : Brush)
    (sel : Option Tier) : Prop :=
  (file = W6File.missing → runW6App y file b sel = W6Run.emptyMessage) ∧
  (∀ dfr : List W6Row × List (Tier × PandasNum × PandasNum),
    load_and_clean_data_file y file = Except.ok dfr → dfr.1 = [] →
    runW6App y file b sel = W6Run.emptyMessage) ∧
  (∀ c : W6Charts, runW6App y file b sel = W6Run.charts c →
    c.hostYearRows ≠ []) ∧
  (∀ msg : String, file = W6File.unreadable msg →
    runW6App y file b sel = W6Run.fatal msg)

/-- C7 (amended to the week6 variant and the caught error class):
`load_and_clean_data` catches exactly `FileNotFoundError`, so a missing
source file becomes an empty table whose `st.error` + `st.stop` guard halts
chart construction, an empty-after-filter table takes the same recoverable
path, and no chart is ever built against zero rows; a
present-but-unreadable file is an uncaught, fatal exception even in week6,
and the `datavisualization_assignment.py` variant dies already on a missing
file. -/
theorem c7_empty_dataset (y : Int) (file : W6File) (b : Brush)
    (sel : Option Tier) : C7Prop y file b sel := by
  refine ⟨?_, ?_, ?_, ?_⟩
  · intro h
    subst h
    rfl
  · intro dfr h hnil
    unfold runW6App
    rw [h]
    show (if dfr.1.isEmpty then W6Run.emptyMessage else _) = W6Run.emptyMessage
    rw [hnil]
    rfl
  · intro c hc
    cases file with
    | missing => exact absurd hc (by simp [runW6App, load_and_clean_data_file])
    | unreadable msg =>
      exact absurd hc (by simp [runW6App, load_and_clean_data_file])
    | contents raws =>
      have hc' : (if (load_and_clean_data y raws).1.isEmpty
            then W6Run.emptyMessage
            else W6Run.charts (renderW6 (load_and_clean_data y raws).1 b sel))
          = W6Run.charts c := hc
      split at hc'
      case isTrue => exact absurd hc' (by simp)
      case isFalse hne =>
        injection hc' with hc'
        subst hc'
        show (load_and_clean_data y raws).1 ≠ []
        intro hnil
        rw [hnil] at hne
        exact hne rfl
  · intro msg h
    subst h
    rfl

/-- Witness for C7 at the missing-file input and at an unreadable-file
input. -/
theorem c7_empty_dataset_witness :
    (W6File.missing = W6File.missing ∧
      runW6App 2025 W6File.missing Brush.unset none = W6Run.emptyMessage) ∧
    (W6File.unreadable ("PermissionError")
        = W6File.unreadable ("PermissionError") ∧
      runW6App 2025 (W6File.unreadable ("PermissionError")) Brush.unset none
        = W6Run.fatal ("PermissionError")) :=
  ⟨⟨rfl, (c7_empty_dataset 2025 W6File.missing Brush.unset none).1 rfl⟩,
    ⟨rfl, (c7_empty_dataset 2025 (W6File.unreadable ("PermissionError"))
      Brush.unset none).2.2.2 ("PermissionError") rfl⟩⟩

/-! ### C8: the main chart's aggregation -/

theorem meanPN_map_val (qs : List ℚ) :
    meanPN (qs.map PandasNum.val) = PandasNum.val (arithMean qs) := by
  unfold meanPN arithMean
  rw [if_pos]
  · rw [List.filterMap_map, List.length_map]
    rw [show ((finPart ∘ PandasNum.val) = some) from rfl, List.filterMap_some]
  · simp only [List.all_eq_true]
    intro x hx
    obtain ⟨q, _, rfl⟩ := List.mem_map.mp hx
    rfl

/-- C8: grouped by `host_start_year`, the main chart's y value is the count
of rows (each carrying a non-null `host_id`) exactly when the selected
metric is the number of new hosts; for every other metric it is the
arithmetic mean of that metric's column over the year group, and the
`count`/`mean` dispatch happens exactly at the `num_hosts` sentinel. -/
theorem c8_main_aggregation (df : List AirbnbRow) (yr : Int) (m : Metric)
    (qs : List ℚ)
    (hqs : (yearGroup df yr).filterMap (colVal (y_axis_options m))
      = qs.map PandasNum.val) :
    (∀ m' : Metric, mainChartAgg m' = AggSpec.countHostId ↔ m' = Metric.numHosts) ∧
    (mainChartValue Metric.numHosts df yr
      = PandasNum.val (df.countP (fun r => decide (r.host_start_year = yr)))) ∧
    (m ≠ Metric.numHosts →
      mainChartValue m df yr = PandasNum.val (arithMean qs)) := by
  refine ⟨?_, ?_, ?_⟩
  · intro m'
    cases m' <;> simp [mainChartAgg, y_axis_options]
  · show evalAgg (mainChartAgg Metric.numHosts) (yearGroup df yr)
      = PandasNum.val (df.countP (fun r => decide (r.host_start_year = yr)))
    rw [List.countP_eq_length_filter]
    rfl
  · intro hm
    have hagg : mainChartAgg m = AggSpec.meanCol (y_axis_options m) := by
      cases m
      · exact absurd rfl hm
      all_goals rfl
    show evalAgg (mainChartAgg m) (yearGroup df yr) = PandasNum.val (arithMean qs)
    rw [hagg]
    show meanPN ((yearGroup df yr).filterMap (colVal (y_axis_options m)))
      = PandasNum.val (arithMean qs)
    rw [hqs, meanPN_map_val]

/-- Witness for C8 at a one-row table and the average-price metric. -/
theorem c8_main_aggregation_witness :
    ((yearGroup [exCleanRow] 2015).filterMap (colVal (y_axis_options Metric.price))
        = ([100] : List ℚ).map PandasNum.val) ∧
      ((∀ m' : Metric, mainChartAgg m' = AggSpec.countHostId ↔ m' = Metric.numHosts) ∧
        (mainChartValue Metric.numHosts [exCleanRow] 2015
          = PandasNum.val (([exCleanRow] : List AirbnbRow).countP
              (fun r => decide (r.host_start_year = 2015)))) ∧
        (Metric.price ≠ Metric.numHosts →
          mainChartValue Metric.price [exCleanRow] 2015
            = PandasNum.val (arithMean ([100] : List ℚ)))) :=
  ⟨by decide, c8_main_aggregation [exCleanRow] 2015 Metric.price [100] (by decide)⟩

/-! ### C9: determinism of the Loader and purity of the engine -/

/-- C9: with the same current year and the same file contents the Loaders
return identical tables, and the chart engines are pure: equal tables,
selection states and widget states give equal chart descriptions. -/
theorem c9_determinism (y1 y2 : Int) (a1 a2 : List AirbnbRaw)
    (w1 w2 : List W6Raw) (d1 d2 : List AirbnbRow) (e1 e2 : List W6Row)
    (b1 b2 : Brush) (m1 m2 : Metric) (s1 s2 : Option Tier)
    (hy : y1 = y2) (ha : a1 = a2) (hw : w1 = w2) (hd : d1 = d2)
    (he : e1 = e2) (hb : b1 = b2) (hm : m1 = m2) (hs : s1 = s2) :
    load_airbnb_data y1 a1 = load_airbnb_data y2 a2 ∧
    load_and_clean_data y1 w1 = load_and_clean_data y2 w2 ∧
    renderDV d1 b1 m1 = renderDV d2 b2 m2 ∧
    renderW6 e1 b1 s1 = renderW6 e2 b2 s2 ∧
    runDVApp y1 (some a1) b1 m1 = runDVApp y2 (some a2) b2 m2 ∧
    runW6App y1 (W6File.contents w1) b1 s1
      = runW6App y2 (W6File.contents w2) b2 s2 := by
  subst_vars
  exact ⟨rfl, rfl, rfl, rfl, rfl, rfl⟩

/-- Witness for C9 at concrete equal inputs. -/
theorem c9_determinism_witness :
    load_airbnb_data 2025 [exCleanRaw] = load_airbnb_data 2025 [exCleanRaw] ∧
    load_and_clean_data 2025 exW6Raws = load_and_clean_data 2025 exW6Raws ∧
    renderDV [exCleanRow] Brush.unset Metric.numHosts
      = renderDV [exCleanRow] Brush.unset Metric.numHosts ∧
    renderW6 [exW6Row2015] Brush.unset none
      = renderW6 [exW6Row2015] Brush.unset none ∧
    runDVApp 2025 (some [exCleanRaw]) Brush.unset Metric.numHosts
      = runDVApp 2025 (some [exCleanRaw]) Brush.unset Metric.numHosts ∧
    runW6App 2025 (W6File.contents exW6Raws) Brush.unset none
      = runW6App 2025 (W6File.contents exW6Raws) Brush.unset none :=
  c9_determinism 2025 2025 [exCleanRaw] [exCleanRaw] exW6Raws exW6Raws
    [exCleanRow] [exCleanRow] [exW6Row2015] [exW6Row2015] Brush.unset Brush.unset
    Metric.numHosts Metric.numHosts none none rfl rfl rfl rfl rfl rfl rfl rfl

/-! ### C10: the superhost boolean mapping -/

/-- The case-insensitive superhost mapping and the drop rule it induces. -/
def C10Prop : Prop :=
  (∀ s : String, (String.mk (lowerChars s.data) = "t" ∨
      String.mk (lowerChars s.data) = "true") → mapSuperhost s = some true) ∧
  (∀ s : String, (String.mk (lowerChars s.data) = "f" ∨
      String.mk (lowerChars s.data) = "false") → mapSuperhost s = some false) ∧
  (∀ s : String, String.mk (lowerChars s.data) ≠ "t" →
    String.mk (lowerChars s.data) ≠ "true" →
    String.mk (lowerChars s.data) ≠ "f" →
    String.mk (lowerChars s.data) ≠ "false" → mapSuperhost s = none) ∧
  (∀ (y : Int) (raw : AirbnbRaw) (s : String),
    raw.host_is_superhost = some s → mapSuperhost s = none →
    cleanAirbnbRow y raw = none) ∧
  (∀ (y : Int) (raw : AirbnbRaw) (row : AirbnbRow),
    cleanAirbnbRow y raw = some row →
    ∃ s : String, raw.host_is_superhost = some s ∧
      mapSuperhost s = some row.host_is_superhost)

theorem cleanAirbnbRow_superhost (y : Int) (raw : AirbnbRaw) (row : AirbnbRow)
    (h : cleanAirbnbRow y raw = some row) :
    ∃ s : String, raw.host_is_superhost = some s ∧
      mapSuperhost s = some row.host_is_superhost := by
  unfold cleanAirbnbRow at h
  split at h
  case h_2 => exact absurd h (by simp)
  case h_1 price rpm rsr chlc hs hid nb shRaw rt hprice hrpm hrsr hchlc hhs
      hhid hnb hsh hrt =>
    split at h
    case isFalse => exact absurd h (by simp)
    case isTrue =>
      split at h
      case h_2 => exact absurd h (by simp)
      case h_1 sh hmapped =>
        split at h
        case isFalse => exact absurd h (by simp)
        case isTrue =>
          simp only [Option.some.injEq] at h
          subst h
          exact ⟨shRaw, hsh, hmapped⟩

/-- C10: `host_is_superhost` is mapped case-insensitively, with `t`/`true`
becoming `True` and `f`/`false` becoming `False`; a row whose lowered value
falls outside that set is dropped, so every retained row carries a
two-valued boolean. -/
theorem c10_superhost_mapping : C10Prop := by
  refine ⟨?_, ?_, ?_, ?_, ?_⟩
  · intro s h
    simp only [mapSuperhost]
    rw [if_pos h]
  · intro s h
    simp only [mapSuperhost]
    rw [if_neg, if_pos h]
    rcases h with h | h <;> rw [h] <;> decide
  · intro s h1 h2 h3 h4
    simp only [mapSuperhost]
    rw [if_neg, if_neg]
    · rintro (hc | hc)
      · exact h3 hc
      · exact h4 hc
    · rintro (hc | hc)
      · exact h1 hc
      · exact h2 hc
  · intro y raw s hsome hnone
    cases hclean : cleanAirbnbRow y raw with
    | none => rfl
    | some row =>
      obtain ⟨s', hs', hmap⟩ := cleanAirbnbRow_superhost y raw row hclean
      rw [hsome] at hs'
      simp only [Option.some.injEq] at hs'
      subst hs'
      rw [hnone] at hmap
      exact absurd hmap (by simp)
  · exact cleanAirbnbRow_superhost

/-- Witness for C10: concrete values on both sides of the mapping, and a
retained row whose boolean comes from the mapping. -/
theorem c10_superhost_mapping_witness :
    (String.mk (lowerChars ("T").data) = "t" ∨
        String.mk (lowerChars ("T").data) = "true") ∧
      mapSuperhost ("T") = some true ∧
      cleanAirbnbRow 2025 exCleanRaw = some exCleanRow ∧
      (∃ s : String, exCleanRaw.host_is_superhost = some s ∧
        mapSuperhost s = some exCleanRow.host_is_superhost) :=
  ⟨by decide, c10_superhost_mapping.1 ("T") (by decide), by decide,
    c10_superhost_mapping.2.2.2.2 2025 exCleanRaw exCleanRow (by decide)⟩
